import Mathlib

/-!
Shallow embedding of the RadonUlzer ConvoyLeader driving control core
(`src/lib/APPConvoyLeader/DrivingState.cpp`) and proofs about it.

The `DrivingState` class is modelled as a pure transition function on an
explicit state record.  Hardware collaborators (differential drive, sound,
LED, odometry, PID controller internals) are modelled as an action trace
emitted by each tick; polled timers deliver their timeout results as
per-tick environment inputs, since wall-clock time is outside the embedding.
Machine integers are modelled as `Int`/`Nat` with explicit two's-complement
truncation (`toInt16`) exactly where the C++ narrows to `int16_t`.
-/

namespace RadonUlzer

/-- Line status of the driving state (enum in `DrivingState.h`):
searching the start line, start line seen, searching the end line. -/
inductive LineStatus where
  | findStartLine
  | startLineDetected
  | findEndLine
deriving DecidableEq, Repr

/-- Track status of the driving state (enum in `DrivingState.h`):
on track, track lost, finished. -/
inductive TrackStatus where
  | onTrack
  | lost
  | finished
deriving DecidableEq, Repr

/-- Forward rank of a line status, used to state monotonicity:
`findStartLine` < `startLineDetected` < `findEndLine`. -/
def LineStatus.rank : LineStatus → Nat
  | .findStartLine => 0
  | .startLineDetected => 1
  | .findEndLine => 2

/-- Modelled from the spec: a polled monotonic timer (`SimpleTimer`, code not
under `src/`).  Only its armed/stopped flag and armed duration are state;
whether it has timed out is polled, so timeout results arrive as per-tick
environment inputs. -/
structure SimpleTimer where
  running : Bool
  duration : Nat
deriving DecidableEq, Repr

/-- Timer start: arm with the given duration. -/
def SimpleTimer.start (d : Nat) : SimpleTimer := ⟨true, d⟩

/-- Timer stop: disarm, keeping the last duration. -/
def SimpleTimer.stop (t : SimpleTimer) : SimpleTimer := ⟨false, t.duration⟩

/-- Modelled from the spec: the position moving-average filter
(`MovingAvg`, code not under `src/`): a fixed-capacity ring of recent
samples plus the smoothed result; cleared on state entry. -/
structure MovingAvg where
  capacity : Nat
  samples : List Int
deriving DecidableEq, Repr

/-- Clear the filter: drop all samples, keep the capacity. -/
def MovingAvg.clear (m : MovingAvg) : MovingAvg := ⟨m.capacity, []⟩

/-- Write a sample into the ring, dropping the oldest when full. -/
def MovingAvg.write (m : MovingAvg) (v : Int) : MovingAvg :=
  let s := m.samples ++ [v]
  ⟨m.capacity, if m.capacity < s.length then s.drop (s.length - m.capacity) else s⟩

/-- Smoothed result: integer average of the stored samples. -/
def MovingAvg.getResult (m : MovingAvg) : Int :=
  if m.samples.length = 0 then 0 else m.samples.sum / (m.samples.length : Int)

/-- Two's-complement narrowing of an unbounded integer to `int16_t`,
as performed by the C++ assignments to `int16_t` locals. -/
def toInt16 (x : Int) : Int := (x + 32768).emod 65536 - 32768

/-- The Arduino `constrain` macro:
`constrain(x, lo, hi) = x < lo ? lo : (x > hi ? hi : x)`. -/
def constrain (x lo hi : Int) : Int := if x < lo then lo else if hi < x then hi else x

/-- Number of line sensors of this board: `Board.h` wires five light
sensors (LIGHT_SENSOR_0 .. LIGHT_SENSOR_4), matching the five channels
read by `isStartEndLineDetected`. -/
def NUM_SENSORS : Nat := 5

/-- Modelled from the spec: per-channel maximum calibrated sensor value
(`ILineSensors::getSensorValueMax`, code not under `src/`); the spec's
position range `[0, (numSensors-1)*1000]` fixes the per-channel unit 1000. -/
def SENSOR_VALUE_MAX : Int := 1000

/-- Modelled from the spec: maximum observation duration for one lap
(`OBSERVATION_DURATION` in `DrivingState.h`, not under `src/`); the
concrete value is irrelevant to the claims, only that the timer is armed
with it. -/
def OBSERVATION_DURATION : Nat := 3000000

/-- Modelled from the spec: the PID sampling period in ms
(`PID_PROCESS_PERIOD` in `DrivingState.h`, not under `src/`). -/
def PID_PROCESS_PERIOD : Nat := 10

/-- Modelled from the spec: fixed maximum search distance while the track
is lost (`MAX_DISTANCE` in `DrivingState.h`, not under `src/`); the
concrete value is irrelevant to the claims. -/
def MAX_DISTANCE : Int := 30000

/-- `DrivingState::isTrackGapDetected`: gap iff the fused position is at or
below `POS_MIN = 0` or at or above `POS_MAX = (numSensors - 1) * 1000`,
where `POS_MAX` is declared `int16_t` in the C++ and hence narrows. -/
def isTrackGapDetected (numSensors : Nat) (position : Int) : Bool :=
  let POS_MIN : Int := 0
  let POS_MAX : Int := toInt16 (((numSensors : Int) - 1) * 1000)
  decide (position ≤ POS_MIN) || decide (POS_MAX ≤ position)

/-- Raw per-channel line sensor readings (`uint16_t` array of the five
channels). -/
structure SensorValues where
  s0 : Nat
  s1 : Nat
  s2 : Nat
  s3 : Nat
  s4 : Nat
deriving DecidableEq, Repr

/-- The undebounced match condition of `DrivingState::isStartEndLineDetected`:
the two outer channels and the integer average of the three middle channels
are all at or above `LINE_SENSOR_OFF_TRACK_VALUE = 200`. -/
def lineSensorMatch (v : SensorValues) : Bool :=
  let leftSensor := v.s0
  let middleSensor := (v.s1 + v.s2 + v.s3) / 3
  let rightSensor := v.s4
  decide (200 ≤ leftSensor) && decide (200 ≤ middleSensor) && decide (200 ≤ rightSensor)

/-- One tick of `DrivingState::isStartEndLineDetected`: given the current
debounce counter, return (detected, new counter).  On a match the counter
increments while below `DEBOUNCE_CNT = 3` and detection holds once the
counter reaches 3; on a non-match the counter resets to 0. -/
def isStartEndLineDetectedStep (debounce : Nat) (v : SensorValues) : Bool × Nat :=
  if lineSensorMatch v then
    let d := if debounce < 3 then debounce + 1 else debounce
    (decide (3 ≤ d), d)
  else
    (false, 0)

/-- Debounce counter transition of one detector tick. -/
def stepCounter (d : Nat) (v : SensorValues) : Nat := (isStartEndLineDetectedStep d v).2

/-- Debounce counter after processing a sequence of detector ticks. -/
def debounceCounterAfter (d : Nat) (vs : List SensorValues) : Nat := vs.foldl stepCounter d

/-- Length of the maximal run of consecutive matching ticks at the end of
the given tick history (most recent tick last). -/
def trailRun : List SensorValues → Nat
  | [] => 0
  | v :: vs => if trailRun vs = vs.length ∧ lineSensorMatch v = true then vs.length + 1 else trailRun vs

/-- `DrivingState::adaptDriving`, wheel-speed part: the PID differential is
subtracted from/added to the top speed in `int` and narrowed to `int16_t`,
then constrained to `[0, topSpeed]`. -/
def adaptDriving (topSpeed speedDifference : Int) : Int × Int :=
  let leftSpeed := toInt16 (topSpeed - speedDifference)
  let rightSpeed := toInt16 (topSpeed + speedDifference)
  (constrain leftSpeed 0 topSpeed, constrain rightSpeed 0 topSpeed)

/-- Observable action emitted by a tick towards a hardware collaborator, in
emission order: drive command, sounds, LED, odometry reset, PID calls, lap
time hand-over, and the request to leave for the ready state. -/
inductive Action where
  | setSpeed (left right : Int)
  | beep
  | alarm
  | ledOn
  | ledOff
  | clearMileage
  | resync
  | calcPid (setpoint processVariable : Int)
  | setLapTime
  | toReady
deriving DecidableEq, Repr

/-- Modelled from the spec: the PID controller's configuration as set by
`DrivingState::entry` (the `PIDController` implementation is not under
`src/`; its integral/derivative history is abstracted into the `resync`
and `calcPid` trace actions). -/
structure PidCfg where
  pNum : Int
  pDen : Int
  iNum : Int
  iDen : Int
  dNum : Int
  dDen : Int
  sampleTime : Nat
  limMin : Int
  limMax : Int
  derivativeOnMeasurement : Bool
deriving DecidableEq, Repr

/-- An entry of `ParameterSets` (top speed and rational PID gains). -/
structure ParameterSet where
  topSpeed : Int
  kPNumerator : Int
  kPDenominator : Int
  kINumerator : Int
  kIDenominator : Int
  kDNumerator : Int
  kDDenominator : Int
deriving DecidableEq, Repr

/-- The mutable member state of the `DrivingState` singleton. -/
structure DState where
  lineStatus : LineStatus
  trackStatus : TrackStatus
  startEndLineDebounce : Nat
  posMovAvg : MovingAvg
  topSpeed : Int
  observationTimer : SimpleTimer
  pidProcessTime : SimpleTimer
  lapTime : SimpleTimer
  pid : PidCfg
deriving DecidableEq, Repr

/-- Per-tick environment inputs: the fused position read from the sensors,
the raw channel array (`none` models a null pointer), the polled timeout
results of the observation and PID interval timers, the differential the
PID controller returns this tick, and the odometry center mileage. -/
structure Env where
  position : Int
  sensorValues : Option SensorValues
  obsTimeout : Bool
  pidTimeout : Bool
  pidDiff : Int
  mileage : Int
deriving DecidableEq, Repr

/-- `DrivingState::entry`: arm the observation timer, arm the PID interval
timer to fire immediately, reset line/track status, clear the position
filter, and load top speed and PID configuration from the parameter set.
The start/end-line debounce counter is not touched by the C++ `entry`. -/
def entry (s : DState) (parSet : ParameterSet) (maxMotorSpeed : Int) : DState :=
  { s with
    observationTimer := SimpleTimer.start OBSERVATION_DURATION
    pidProcessTime := SimpleTimer.start 0
    lineStatus := .findStartLine
    trackStatus := .onTrack
    posMovAvg := s.posMovAvg.clear
    topSpeed := parSet.topSpeed
    pid := { pNum := parSet.kPNumerator, pDen := parSet.kPDenominator,
             iNum := parSet.kINumerator, iDen := parSet.kIDenominator,
             dNum := parSet.kDNumerator, dDen := parSet.kDDenominator,
             sampleTime := PID_PROCESS_PERIOD,
             limMin := -maxMotorSpeed, limMax := maxMotorSpeed,
             derivativeOnMeasurement := true } }

/-- The trace of `DrivingState::adaptDriving(position)`: one PID calculate
call with setpoint `getSensorValueMax() * 2` and the fused position as
process variable, followed by the constrained wheel-speed command.  The
differential returned by the PID calculate call is an environment input. -/
def adaptDrivingActs (topSpeed diff position : Int) : List Action :=
  let sp := adaptDriving topSpeed diff
  [Action.calcPid (SENSOR_VALUE_MAX * 2) position, Action.setSpeed sp.1 sp.2]

/-- `DrivingState::processOnTrack`: bail out on a null sensor array; on a
gap of the *filtered* position go to `lost` (clear mileage, LED on);
otherwise run the debounced start/end-line detector and advance the line
status, then, if not finished and the PID interval elapsed, steer. -/
def processOnTrack (s : DState) (e : Env) : DState × List Action :=
  match e.sensorValues with
  | none => (s, [])
  | some v =>
    if isTrackGapDetected NUM_SENSORS s.posMovAvg.getResult then
      ({ s with trackStatus := .lost }, [.clearMileage, .ledOn])
    else
      let r := isStartEndLineDetectedStep s.startEndLineDebounce v
      let s1 := { s with startEndLineDebounce := r.2 }
      let p :=
        if r.1 then
          if s1.lineStatus = .findStartLine then
            ({ s1 with lineStatus := .startLineDetected, lapTime := SimpleTimer.start 0 },
             [Action.beep])
          else if s1.lineStatus = .findEndLine then
            ({ s1 with trackStatus := .finished },
             [Action.setSpeed 0 0, Action.beep, Action.setLapTime])
          else (s1, [])
        else if s1.lineStatus = .startLineDetected then
          ({ s1 with lineStatus := .findEndLine }, [])
        else (s1, [])
      if p.1.trackStatus ≠ .finished ∧ e.pidTimeout = true then
        ({ p.1 with pidProcessTime := SimpleTimer.start PID_PROCESS_PERIOD },
         p.2 ++ adaptDrivingActs p.1.topSpeed e.pidDiff e.position)
      else p

/-- `DrivingState::processTrackLost`: bail out on a null sensor array; if
the gap test on the *raw* position is now false, return to `onTrack` with a
PID resync and LED off; else if the mileage since entering `lost` exceeds
`MAX_DISTANCE`, stop, alarm and finish; else drive straight at top speed. -/
def processTrackLost (s : DState) (e : Env) : DState × List Action :=
  match e.sensorValues with
  | none => (s, [])
  | some _ =>
    if isTrackGapDetected NUM_SENSORS e.position = false then
      ({ s with trackStatus := .onTrack }, [Action.resync, Action.ledOff])
    else if MAX_DISTANCE < e.mileage then
      ({ s with trackStatus := .finished }, [Action.setSpeed 0 0, Action.alarm])
    else
      (s, [Action.setSpeed s.topSpeed s.topSpeed])

/-- The `switch (m_trackStatus)` dispatch of `DrivingState::process`.  The
C++ `default` fail-safe branch is unreachable here because the Lean enum
has exactly the three declared values. -/
def dispatchTrack (s : DState) (e : Env) : DState × List Action :=
  match s.trackStatus with
  | .onTrack => processOnTrack s e
  | .lost => processTrackLost s e
  | .finished => (s, [Action.toReady])

/-- `DrivingState::process`: read the fused position into the moving
average, dispatch on the track status, and afterwards, if the status is
still not finished and the observation timer has elapsed, force finished,
stop the motors and sound the alarm. -/
def process (s : DState) (e : Env) : DState × List Action :=
  let s1 := { s with posMovAvg := s.posMovAvg.write e.position }
  let r := dispatchTrack s1 e
  if r.1.trackStatus ≠ .finished ∧ e.obsTimeout = true then
    ({ r.1 with trackStatus := .finished }, r.2 ++ [Action.setSpeed 0 0, Action.alarm])
  else r

/-- `DrivingState::exit`: stop the observation timer (the LED-off command
goes to the board, not into the member state). -/
def exitDriving (s : DState) : DState :=
  { s with observationTimer := s.observationTimer.stop }

/-- Example PID configuration for concrete runs. -/
def pidCfgEx : PidCfg := ⟨1, 10, 1, 100, 1, 10, 10, -400, 400, true⟩

/-- Example parameter set for concrete runs. -/
def parSetEx : ParameterSet := ⟨200, 1, 10, 1, 100, 1, 10⟩

/-- Concrete on-track driving state: mid-track, searching the start line. -/
def stateC1 : DState :=
  ⟨.findStartLine, .onTrack, 0, ⟨2, [2000]⟩, 200,
   SimpleTimer.start OBSERVATION_DURATION, SimpleTimer.start 0, ⟨false, 0⟩, pidCfgEx⟩

/-- Concrete environment: centered position, dark sensors, observation and
PID interval timers both elapsed this tick. -/
def envC1 : Env := ⟨2000, some ⟨100, 100, 100, 100, 100⟩, true, true, 0, 0⟩

/-- Concrete prior state with a saturated debounce counter left over from a
previous lap attempt. -/
def stateC2 : DState :=
  ⟨.findEndLine, .finished, 3, ⟨2, [5]⟩, 77, ⟨false, 0⟩, ⟨false, 0⟩, ⟨false, 0⟩, pidCfgEx⟩

/-- Concrete lost-track state. -/
def stateC8 : DState :=
  ⟨.startLineDetected, .lost, 0, ⟨2, [0]⟩, 200,
   SimpleTimer.start OBSERVATION_DURATION, SimpleTimer.start PID_PROCESS_PERIOD, ⟨true, 0⟩, pidCfgEx⟩

/-- Concrete environment in which the raw position sees the line again. -/
def envC8 : Env := ⟨1500, some ⟨100, 900, 900, 900, 100⟩, false, false, 0, 100⟩

/-- Concrete lost-track state for the null-sensor frame run. -/
def stateC10 : DState :=
  ⟨.findEndLine, .lost, 2, ⟨2, [0, 0]⟩, 200,
   SimpleTimer.start OBSERVATION_DURATION, SimpleTimer.start 0, ⟨true, 0⟩, pidCfgEx⟩

/-- Concrete environment with a null sensor array. -/
def envC10 : Env := ⟨0, none, false, true, 5, 99999⟩

/-- Matching full-width bright reading. -/
def svBright : SensorValues := ⟨800, 700, 650, 720, 810⟩

/-- Non-matching dark reading. -/
def svDark : SensorValues := ⟨100, 100, 100, 100, 100⟩

/-- Number of PID resync invocations in an action trace. -/
def countResync : List Action → Nat
  | [] => 0
  | a :: l => (if a = Action.resync then 1 else 0) + countResync l

/-! ## Theorems -/

/-- Narrowing to `int16_t` is the identity on values already in range. -/
theorem toInt16_eq_self (x : Int) (h1 : -32768 ≤ x) (h2 : x ≤ 32767) : toInt16 x = x := by
  unfold toInt16
  have h : (x + 32768).emod 65536 = x + 32768 := Int.emod_eq_of_lt (by omega) (by omega)
  omega

/-- Claim C2 (counterexample): `entry` does not clear the start/end-line
debounce counter — applied to a prior state whose counter is 3, the
post-state counter is still 3, refuting "the debounce counter is cleared
to 0 for every prior state". -/
theorem entry_debounce_not_cleared : (entry stateC2 parSetEx 400).startEndLineDebounce ≠ 0 := by
  decide

/-- Claim C2 (amended): `entry` establishes the post-state — line status
`findStartLine`, track status `onTrack`, position filter cleared,
observation timer armed, PID interval timer armed to fire immediately, top
speed loaded — for every prior state, while the start/end-line debounce
counter is left unchanged (not cleared). -/
theorem entry_post_state (s : DState) (p : ParameterSet) (m : Int) :
    (entry s p m).lineStatus = .findStartLine ∧
    (entry s p m).trackStatus = .onTrack ∧
    (entry s p m).posMovAvg = s.posMovAvg.clear ∧
    (entry s p m).observationTimer = SimpleTimer.start OBSERVATION_DURATION ∧
    (entry s p m).pidProcessTime = SimpleTimer.start 0 ∧
    (entry s p m).topSpeed = p.topSpeed ∧
    (entry s p m).startEndLineDebounce = s.startEndLineDebounce :=
  ⟨rfl, rfl, rfl, rfl, rfl, rfl, rfl⟩

/-- Claim C3 (counterexample): for `numSensors = 34` the `int16_t`
declaration of `POS_MAX` truncates `(34-1)*1000 = 33000` to `-32536`, so
the gap test returns true at the mid position `16500` although
`16500 ≤ 0 ∨ 33000 ≤ 16500` is false — refuting the claim for every
`numSensors ≥ 2`. -/
theorem gap_test_truncation :
    isTrackGapDetected 34 16500 = true ∧
    ¬((16500 : Int) ≤ 0 ∨ ((34 : Int) - 1) * 1000 ≤ 16500) := by
  constructor
  · decide
  · push_neg
    norm_num

/-- Claim C3 (amended): for every `numSensors` with `2 ≤ numSensors ≤ 33`
(so that `POS_MAX = (numSensors-1)*1000` fits `int16_t`) and every fused
position `p`, the gap test returns true iff `p ≤ 0` or `p ≥ max`; in
particular it is true at `0` and at `max`, false at `max/2`, and the test
itself applies no debouncing (it is a pure function of the position). -/
theorem gap_test_iff (n : Nat) (p : Int) (h2 : 2 ≤ n) (h33 : n ≤ 33) :
    (isTrackGapDetected n p = true ↔ (p ≤ 0 ∨ ((n : Int) - 1) * 1000 ≤ p)) ∧
    isTrackGapDetected n 0 = true ∧
    isTrackGapDetected n (((n : Int) - 1) * 1000) = true ∧
    isTrackGapDetected n (((n : Int) - 1) * 1000 / 2) = false := by
  have hn2 : (2 : Int) ≤ (n : Int) := by exact_mod_cast h2
  have hn33 : (n : Int) ≤ 33 := by exact_mod_cast h33
  have hmax : toInt16 (((n : Int) - 1) * 1000) = ((n : Int) - 1) * 1000 :=
    toInt16_eq_self _ (by omega) (by omega)
  unfold isTrackGapDetected
  simp only [hmax, Bool.or_eq_true, decide_eq_true_eq, Bool.or_eq_false_iff,
    decide_eq_false_iff_not, not_le]
  refine ⟨by trivial, Or.inl le_rfl, Or.inr le_rfl, ?_, ?_⟩ <;> omega

/-- Claim C3 (witness): the amended gap test statement evaluated at
`numSensors = 5`, `p = 2000`: gap at 0 and 4000, no gap at the midpoint. -/
theorem gap_test_iff_witness :
    isTrackGapDetected 5 0 = true ∧
    isTrackGapDetected 5 (((5 : Int) - 1) * 1000) = true ∧
    isTrackGapDetected 5 (((5 : Int) - 1) * 1000 / 2) = false := by
  have h := gap_test_iff 5 2000 (by decide) (by decide)
  exact ⟨h.2.1, h.2.2.1, h.2.2.2⟩

/-- Claim C5 (counterexample): at `topSpeed = 32767` and PID differential
`-32767`, the C++ narrows `topSpeed - differential = 65534` to the
`int16_t` value `-2` before constraining, so the commanded left speed is
`0`, not `clamp(topSpeed - differential, 0, topSpeed) = 32767` — refuting
the claimed clamp identity for every top speed and differential. -/
theorem adaptDriving_overflow :
    (adaptDriving 32767 (-32767)).1 = 0 ∧
    constrain (32767 - (-32767)) 0 32767 = 32767 ∧
    (0 : Int) ≠ 32767 := by
  refine ⟨by decide, by decide, by decide⟩

/-- Claim C5 (amended): for every top speed `t ≥ 0` and every differential
`d`, both commanded speeds lie in `[0, t]` — no reverse speed is ever
commanded; and whenever the intermediate sums `t - d` and `t + d` stay
within `int16_t` range (as for all realistic motor speeds), the commanded
speeds are exactly `clamp(t - d, 0, t)` and `clamp(t + d, 0, t)`. -/
theorem adaptDriving_clamp (t d : Int) (h0 : 0 ≤ t) :
    (0 ≤ (adaptDriving t d).1 ∧ (adaptDriving t d).1 ≤ t ∧
     0 ≤ (adaptDriving t d).2 ∧ (adaptDriving t d).2 ≤ t) ∧
    (t ≤ 32767 → -32768 ≤ d → d ≤ 32767 → t - d ≤ 32767 → t + d ≤ 32767 →
      adaptDriving t d = (constrain (t - d) 0 t, constrain (t + d) 0 t)) := by
  constructor
  · refine ⟨?_, ?_, ?_, ?_⟩ <;> (simp only [adaptDriving, constrain]; split_ifs <;> omega)
  · intro h1 h2 h3 h4 h5
    have hl : toInt16 (t - d) = t - d := toInt16_eq_self _ (by omega) (by omega)
    have hr : toInt16 (t + d) = t + d := toInt16_eq_self _ (by omega) (by omega)
    unfold adaptDriving
    simp only [hl, hr]

/-- Claim C5 (witness): the amended statement at `t = 200`, `d = -50`:
the commanded speeds are `(200, 150)`, the clamp of `(250, 150)`, and both
lie in `[0, 200]`. -/
theorem adaptDriving_clamp_witness :
    adaptDriving 200 (-50) = (constrain 250 0 200, constrain 150 0 200) ∧
    adaptDriving 200 (-50) = (200, 150) ∧
    0 ≤ (adaptDriving 200 (-50)).1 ∧ (adaptDriving 200 (-50)).1 ≤ 200 := by
  have h := adaptDriving_clamp 200 (-50) (by decide)
  exact ⟨by exact_mod_cast h.2 (by decide) (by decide) (by decide) (by decide) (by decide),
    by decide, h.1.1, h.1.2.1⟩

/-- Claim C8: on every tick processed while the track is lost with a
non-null sensor array: if the raw-position gap test is false the state
transitions to `onTrack`; else if the accumulated mileage exceeds
`MAX_DISTANCE` the drive is stopped, the alarm sounds and the status
becomes `finished`; else both wheels are commanded to the top speed. -/
theorem processTrackLost_cases (s : DState) (e : Env) (v : SensorValues)
    (hv : e.sensorValues = some v) :
    (isTrackGapDetected NUM_SENSORS e.position = false →
      processTrackLost s e = ({ s with trackStatus := .onTrack }, [Action.resync, Action.ledOff])) ∧
    (isTrackGapDetected NUM_SENSORS e.position = true → MAX_DISTANCE < e.mileage →
      processTrackLost s e = ({ s with trackStatus := .finished },
        [Action.setSpeed 0 0, Action.alarm])) ∧
    (isTrackGapDetected NUM_SENSORS e.position = true → e.mileage ≤ MAX_DISTANCE →
      processTrackLost s e = (s, [Action.setSpeed s.topSpeed s.topSpeed])) := by
  unfold processTrackLost
  rw [hv]
  refine ⟨fun hg => ?_, fun hg hm => ?_, fun hg hm => ?_⟩
  · simp [hg]
  · simp [hg, hm]
  · simp [hg]
    exact hm

/-- Claim C8 (witness): in a concrete lost-track tick whose raw position
sees the line again, the status returns to `onTrack` with a resync and the
LED switched off. -/
theorem processTrackLost_cases_witness :
    processTrackLost stateC8 envC8 =
      ({ stateC8 with trackStatus := .onTrack }, [Action.resync, Action.ledOff]) := by
  have h := (processTrackLost_cases stateC8 envC8 ⟨100, 900, 900, 900, 100⟩ rfl).1
  exact h (by decide)

/-- Claim C10: on a tick whose raw line-sensor array pointer is null,
`processOnTrack` and `processTrackLost` return immediately: the state is
unchanged (line status, track status, debounce counter, timers) and no
action — in particular no drive command, recovery check or abort — is
emitted, so previously commanded wheel speeds persist. -/
theorem null_sensors_frame (s : DState) (e : Env) (h : e.sensorValues = none) :
    processOnTrack s e = (s, []) ∧ processTrackLost s e = (s, []) := by
  unfold processOnTrack processTrackLost
  rw [h]
  exact ⟨rfl, rfl⟩

/-- Claim C10 (witness): the null-sensor frame property evaluated on a
concrete lost-track state and a null sensor array. -/
theorem null_sensors_frame_witness :
    processOnTrack stateC10 envC10 = (stateC10, []) ∧
    processTrackLost stateC10 envC10 = (stateC10, []) :=
  null_sensors_frame stateC10 envC10 rfl

/-- Claim C1 (counterexample): in a concrete tick in which the observation
timer has elapsed while on track and not finished, the PID steering command
`setSpeed 200 200` is issued *before* the forced stop `setSpeed 0 0`: the
cutoff runs after the track-status dispatch, so it neither stops the drive
before any other action of the tick nor prevents other drive commands that
tick. -/
theorem observation_cutoff_not_first :
    stateC1.trackStatus ≠ .finished ∧ envC1.obsTimeout = true ∧
    (process stateC1 envC1).2 =
      [Action.calcPid 2000 2000, Action.setSpeed 200 200,
       Action.setSpeed 0 0, Action.alarm] ∧
    (process stateC1 envC1).2.head? ≠ some (Action.setSpeed 0 0) ∧
    Action.setSpeed 200 200 ∈ (process stateC1 envC1).2 := by
  refine ⟨by decide, rfl, by decide, by decide, by decide⟩

/-- Claim C1 (amended): each tick, if the observation timer has elapsed and
the track status *after the per-tick dispatch* is not finished, the tick
forces the status to finished, stops the drive and sounds the alarm — but
as the final actions of the tick, appended after the dispatch's own actions
(which may include drive commands), not before them. -/
theorem observation_cutoff_after_dispatch (s : DState) (e : Env)
    (ht : e.obsTimeout = true)
    (hnf : (dispatchTrack { s with posMovAvg := s.posMovAvg.write e.position } e).1.trackStatus
      ≠ .finished) :
    (process s e).1.trackStatus = .finished ∧
    (process s e).2 =
      (dispatchTrack { s with posMovAvg := s.posMovAvg.write e.position } e).2 ++
        [Action.setSpeed 0 0, Action.alarm] := by
  unfold process
  rw [if_pos ⟨hnf, ht⟩]
  exact ⟨rfl, rfl⟩

/-- Claim C1 (witness): the amended cutoff statement on the concrete
on-track tick: the status is forced to finished and the stop and alarm are
the final two actions, after the steering command of the same tick. -/
theorem observation_cutoff_after_dispatch_witness :
    envC1.obsTimeout = true ∧
    (dispatchTrack { stateC1 with posMovAvg := stateC1.posMovAvg.write envC1.position } envC1).1.trackStatus
      ≠ .finished ∧
    (process stateC1 envC1).1.trackStatus = .finished := by
  refine ⟨rfl, by decide, (observation_cutoff_after_dispatch stateC1 envC1 rfl (by decide)).1⟩

/-- Appending one tick to the history: the trailing match run extends by
one on a matching tick and collapses to zero on a non-matching tick. -/
theorem trailRun_append (l : List SensorValues) (v : SensorValues) :
    trailRun (l ++ [v]) = if lineSensorMatch v = true then trailRun l + 1 else 0 := by
  induction l with
  | nil => by_cases h : lineSensorMatch v = true <;> simp [trailRun, h]
  | cons h t ih =>
    by_cases hv : lineSensorMatch v = true <;>
      by_cases hh : lineSensorMatch h = true <;>
        by_cases hw : trailRun t = t.length <;>
          simp [trailRun, ih, hv, hh, hw, List.length_append] <;> omega

/-- One foldl step at the end of the history. -/
theorem debounceCounterAfter_append (l : List SensorValues) (v : SensorValues) :
    debounceCounterAfter 0 (l ++ [v]) = stepCounter (debounceCounterAfter 0 l) v := by
  simp [debounceCounterAfter, List.foldl_append]

/-- The debounce counter equals the trailing match-run length saturated at
the threshold 3. -/
theorem debounceCounterAfter_eq (l : List SensorValues) :
    debounceCounterAfter 0 l = min 3 (trailRun l) := by
  induction l using List.reverseRecOn with
  | nil => rfl
  | append_singleton l v ih =>
    rw [debounceCounterAfter_append, trailRun_append, ih]
    simp only [stepCounter, isStartEndLineDetectedStep]
    by_cases hv : lineSensorMatch v = true <;>
      simp [hv, Nat.min_def] <;> split_ifs <;> omega

/-- The detector's reported value on a tick is exactly "the new counter
reached 3". -/
theorem isStartEndLineDetectedStep_fst (c : Nat) (v : SensorValues) :
    (isStartEndLineDetectedStep c v).1 = decide (3 ≤ stepCounter c v) := by
  simp only [stepCounter, isStartEndLineDetectedStep]
  by_cases hv : lineSensorMatch v = true <;> simp [hv]

/-- Claim C4: starting from a cleared debounce counter, after any tick
history the detector reports a crossing on the current tick exactly when
the two outermost channels and the interior-average channel have been at or
above the threshold on each of the last 3 or more consecutive ticks
(`trailRun` counts that run); and the counter resets to 0 on any
non-matching tick.  Hence 2 matching ticks followed by a non-match never
report, and a run of 3+ matching ticks reports from its 3rd tick onward. -/
theorem startEndLine_debounce (hist : List SensorValues) (v : SensorValues) (d : Nat) :
    ((isStartEndLineDetectedStep (debounceCounterAfter 0 hist) v).1 = true ↔
      3 ≤ trailRun (hist ++ [v])) ∧
    (lineSensorMatch v = false → isStartEndLineDetectedStep d v = (false, 0)) := by
  constructor
  · rw [isStartEndLineDetectedStep_fst, ← debounceCounterAfter_append,
      debounceCounterAfter_eq]
    simp only [decide_eq_true_eq]
    omega
  · intro h
    unfold isStartEndLineDetectedStep
    simp [h]

/-- Claim C4 (witness): after two matching ticks a third matching tick
reports detected (counter saturates at 3), and a non-matching tick resets
the counter from 2 to 0 without reporting. -/
theorem startEndLine_debounce_witness :
    ((isStartEndLineDetectedStep (debounceCounterAfter 0 [svBright, svBright]) svBright).1 = true ↔
      3 ≤ trailRun ([svBright, svBright] ++ [svBright])) ∧
    (isStartEndLineDetectedStep (debounceCounterAfter 0 [svBright, svBright]) svBright).1 = true ∧
    isStartEndLineDetectedStep 2 svDark = (false, 0) := by
  have h := startEndLine_debounce [svBright, svBright] svBright 2
  have h' := startEndLine_debounce [svBright, svBright] svDark 2
  exact ⟨h.1, by decide, h'.2 (by decide)⟩

/-- `processTrackLost` never changes the line status. -/
theorem processTrackLost_lineStatus (s : DState) (e : Env) :
    (processTrackLost s e).1.lineStatus = s.lineStatus := by
  unfold processTrackLost
  cases hv : e.sensorValues <;> simp only [hv]
  split_ifs <;> rfl

/-- `processOnTrack` never lowers the line-status rank. -/
theorem processOnTrack_rank (s : DState) (e : Env) :
    s.lineStatus.rank ≤ (processOnTrack s e).1.lineStatus.rank := by
  unfold processOnTrack
  cases hv : e.sensorValues <;> simp only [hv]
  · exact le_rfl
  cases hls : s.lineStatus <;>
    split_ifs <;> simp_all [LineStatus.rank]

/-- The dispatch never lowers the line-status rank. -/
theorem dispatchTrack_rank (s : DState) (e : Env) :
    s.lineStatus.rank ≤ (dispatchTrack s e).1.lineStatus.rank := by
  unfold dispatchTrack
  cases hts : s.trackStatus <;> simp only [hts]
  · exact processOnTrack_rank s e
  · rw [processTrackLost_lineStatus]
  · exact le_rfl

/-- Claim C9: within one lap attempt, no tick of `process` ever assigns
the line status an earlier value than it currently holds: the rank
`findStartLine < startLineDetected < findEndLine` never decreases. -/
theorem lineStatus_monotone (s : DState) (e : Env) :
    s.lineStatus.rank ≤ (process s e).1.lineStatus.rank := by
  have h := dispatchTrack_rank ({ s with posMovAvg := s.posMovAvg.write e.position }) e
  simp only [process]
  split_ifs
  · exact h
  · exact h

/-- Counting resyncs distributes over trace concatenation. -/
theorem countResync_append (l1 l2 : List Action) :
    countResync (l1 ++ l2) = countResync l1 + countResync l2 := by
  induction l1 with
  | nil => simp [countResync]
  | cons a l ih => simp [countResync, ih]; omega

/-- `processOnTrack` never emits a resync. -/
theorem countResync_processOnTrack (s : DState) (e : Env) :
    countResync (processOnTrack s e).2 = 0 := by
  unfold processOnTrack adaptDrivingActs
  cases hv : e.sensorValues <;> simp only [hv]
  · rfl
  · split_ifs <;> simp [countResync, countResync_append]

/-- The dispatch emits exactly one resync on a lost-track tick whose raw
position passes the gap test again, and none otherwise. -/
theorem countResync_dispatch (s : DState) (e : Env) :
    countResync (dispatchTrack s e).2 =
      (if s.trackStatus = .lost ∧ e.sensorValues ≠ none ∧
          isTrackGapDetected NUM_SENSORS e.position = false then 1 else 0) := by
  unfold dispatchTrack
  cases hts : s.trackStatus <;> simp only [hts]
  · rw [countResync_processOnTrack]
    simp
  · unfold processTrackLost
    cases hv : e.sensorValues <;> simp only [hv]
    · simp [hv, countResync]
    · split_ifs <;> simp_all [countResync]
  · simp [countResync]

/-- Claim C7: in every tick, the PID resync is invoked exactly once when
the track status is `lost` and the gap test on the raw position has become
false (with a non-null sensor array) — the `lost → onTrack` transition —
and on no other tick. -/
theorem resync_exactly_on_recovery (s : DState) (e : Env) :
    countResync (process s e).2 =
      (if s.trackStatus = .lost ∧ e.sensorValues ≠ none ∧
          isTrackGapDetected NUM_SENSORS e.position = false then 1 else 0) := by
  have heq : countResync (process s e).2 =
      countResync (dispatchTrack ({ s with posMovAvg := s.posMovAvg.write e.position }) e).2 := by
    simp only [process]
    split_ifs
    · simp [countResync_append, countResync]
    · rfl
  rw [heq, countResync_dispatch]

/-- A `calcPid` action emitted by `processTrackLost` is impossible. -/
theorem calcPid_not_mem_processTrackLost (s : DState) (e : Env) (sp pv : Int)
    (h : Action.calcPid sp pv ∈ (processTrackLost s e).2) : False := by
  unfold processTrackLost at h
  cases hv : e.sensorValues <;> simp only [hv] at h
  · simp at h
  · split_ifs at h <;> simp_all

/-- A `calcPid` action emitted by `processOnTrack` carries the fixed
setpoint `getSensorValueMax() * 2` and the raw fused position. -/
theorem calcPid_mem_processOnTrack (s : DState) (e : Env) (sp pv : Int)
    (h : Action.calcPid sp pv ∈ (processOnTrack s e).2) :
    sp = SENSOR_VALUE_MAX * 2 ∧ pv = e.position := by
  unfold processOnTrack adaptDrivingActs at h
  cases hv : e.sensorValues <;> simp only [hv] at h
  · simp at h
  · split_ifs at h <;> simp_all

/-- Claim C6: every steering computation of a tick passes the PID
controller the setpoint `(numSensors - 1) * 1000 / 2` — the midpoint of
the sensor position range — and the raw fused line position as process
variable. -/
theorem pid_setpoint_midpoint (s : DState) (e : Env) (sp pv : Int)
    (h : Action.calcPid sp pv ∈ (process s e).2) :
    sp = ((NUM_SENSORS : Int) - 1) * 1000 / 2 ∧ pv = e.position := by
  have key : ∀ s' : DState, Action.calcPid sp pv ∈ (dispatchTrack s' e).2 →
      sp = SENSOR_VALUE_MAX * 2 ∧ pv = e.position := by
    intro s' h'
    unfold dispatchTrack at h'
    cases hts : s'.trackStatus <;> simp only [hts] at h'
    · exact calcPid_mem_processOnTrack s' e sp pv h'
    · exact absurd h' (fun h' => calcPid_not_mem_processTrackLost s' e sp pv h')
    · simp at h'
  simp only [process] at h
  split_ifs at h
  · simp only [List.mem_append] at h
    rcases h with h | h
    · have := key _ h
      exact ⟨by rw [this.1]; decide, this.2⟩
    · simp at h
  · have := key _ h
    exact ⟨by rw [this.1]; decide, this.2⟩

/-- Claim C6 (witness): in the concrete on-track tick, the emitted PID
call uses setpoint 2000 = (5-1)*1000/2 and the position 2000 read that
tick. -/
theorem pid_setpoint_midpoint_witness :
    Action.calcPid 2000 2000 ∈ (process stateC1 envC1).2 ∧
    (2000 : Int) = ((NUM_SENSORS : Int) - 1) * 1000 / 2 := by
  have h := pid_setpoint_midpoint stateC1 envC1 2000 2000 (by decide)
  exact ⟨by decide, h.1⟩

end RadonUlzer
